import Mathlib

/-!
Verification development for `src/assets/generate_icons.py` (MediaClassifier).

The script is a linear pipeline: acquire-or-synthesize a 256x256 base image at
the fixed path `icon-256.png`, resize it to each size in `SIZES` except 256
(LANCZOS), save each as `icon-<size>.png`, then collect the per-size files that
exist and package them into `icon.ico`.

The shallow embedding below models the filesystem as an association list from
path to file content, a raster image by its provenance (created / drawn upon /
loaded-as-stored / resized) together with its mode and dimensions, and the
script's `main` as a pure function from the initial filesystem state to a run
result that records the final filesystem, the exit code, the list of resize
invocations, whether synthesis happened, the size table written into the
container, and the printed lines.
-/

namespace GenerateIcons

/-- Resampling filters of the imaging library; the script only ever uses
`Image.Resampling.LANCZOS`. -/
inductive Filter
  | nearest
  | bilinear
  | bicubic
  | lanczos
deriving DecidableEq

/-- A drawing primitive, as invoked by `create_simple_icon` on an
`ImageDraw.Draw` handle. -/
inductive DrawOp
  | roundedRectangle (box : List Nat) (radius : Nat) (fill : String)
  | rectangle (box : List Nat) (fill : String)
  | polygon (points : List (Nat × Nat)) (fill : String)
  | ellipse (box : List Nat) (fill : String)
  | text (pos : Nat × Nat) (s : String) (fill : String)
deriving DecidableEq

/-- An in-memory raster, tracked by provenance: `Image.new(mode, (w, h), color)`,
a draw call on an existing raster, or `img.resize((w, h), filter)`. A raster
loaded from disk is whatever raster was stored there (PNG round-trips
losslessly, so saving and re-opening is the identity in this model). -/
inductive Raster
  | new (mode : String) (w : Nat) (h : Nat) (color : Nat × Nat × Nat)
  | drawn (base : Raster) (op : DrawOp)
  | resizeOp (src : Raster) (w : Nat) (h : Nat) (filter : Filter)
deriving DecidableEq

/-- Width of a raster: drawing leaves dimensions unchanged; `resize((w, h), f)`
yields width `w`. -/
def Raster.width : Raster → Nat
  | .new _ w _ _ => w
  | .drawn base _ => base.width
  | .resizeOp _ w _ _ => w

/-- Height of a raster. -/
def Raster.height : Raster → Nat
  | .new _ _ h _ => h
  | .drawn base _ => base.height
  | .resizeOp _ _ h _ => h

/-- Pixel mode of a raster: set by `Image.new`, preserved by drawing and by
`resize`. -/
def Raster.mode : Raster → String
  | .new m _ _ _ => m
  | .drawn base _ => base.mode
  | .resizeOp src _ _ _ => src.mode

/-- Whether a Pillow pixel mode carries an alpha channel. -/
def modeHasAlpha (m : String) : Bool :=
  m = "RGBA" || m = "LA" || m = "PA"

/-- Content of a file on disk: either a saved raster (the `.png` files) or the
icon container written by `ico_images[0].save(ico_path, format='ICO', sizes=...)`.
The `ico` constructor records the call as made: the one image the save was
invoked on (`ico_images[1:]` are never passed to the encoder) and the `sizes`
table passed as argument. The images the encoder actually embeds are NOT one
per requested size: Pillow documents that any requested size bigger than the
saved image itself or than 256x256 is ignored; they are derived from this
record by `icoEmbeddedSizes` and `icoEmbeddedImages` below. -/
inductive FileContent
  | png (img : Raster)
  | ico (base : Raster) (sizes : List (Nat × Nat))
deriving DecidableEq

/-- The image `Image.open` yields for a stored file. -/
def FileContent.toImage : FileContent → Raster
  | .png img => img
  | .ico base _ => base

/-- The sizes Pillow's ICO encoder actually embeds when an image is saved with
a requested `sizes` table: per the documented behavior, any requested size
bigger than the saved image itself, or bigger than 256x256, is ignored. (In
every call this script makes the requested table is already duplicate-free and
ascending, so no deduplication or reordering is modelled.) -/
def icoEmbeddedSizes (saved : Raster) (sizes : List (Nat × Nat)) : List (Nat × Nat) :=
  sizes.filter fun p =>
    p.1 ≤ saved.width && p.2 ≤ saved.height && p.1 ≤ 256 && p.2 ≤ 256

/-- The images embedded in the container: one per surviving size — the saved
image itself when the size is its own, otherwise a LANCZOS thumbnail of it
(the encoder downscales the single saved image to each remaining size). -/
def icoEmbeddedImages (saved : Raster) (sizes : List (Nat × Nat)) : List Raster :=
  (icoEmbeddedSizes saved sizes).map fun p =>
    if p.1 = saved.width ∧ p.2 = saved.height then saved
    else Raster.resizeOp saved p.1 p.2 Filter.lanczos

/-- The filesystem (the script's own directory after `os.chdir(SCRIPT_DIR)`):
an association list from path to content, newest entry first. -/
abbrev FS := List (String × FileContent)

/-- Look a path up (`Path.exists` / `Image.open`). -/
def FS.lookup : FS → String → Option FileContent
  | [], _ => none
  | (p, c) :: rest, q => if p = q then some c else FS.lookup rest q

/-- Write a file (`img.save(path)`), overwriting any previous content. -/
def FS.write (fs : FS) (p : String) (c : FileContent) : FS :=
  (p, c) :: fs

/-- `Image.open(path)` when a file exists at `path`. -/
def openImage (fs : FS) (p : String) : Option Raster :=
  (FS.lookup fs p).map FileContent.toImage

/-- `SIZES = [16, 32, 48, 64, 128, 256]`. -/
def SIZES : List Nat := [16, 32, 48, 64, 128, 256]

/-- The fixed base-image path `SCRIPT_DIR / "icon-256.png"`. -/
def basePath : String := "icon-256.png"

/-- The deterministic per-size path `SCRIPT_DIR / f"icon-(size).png"`. -/
def iconName (size : Nat) : String :=
  "icon-" ++ toString size ++ ".png"

/-- `create_simple_icon()`: a 256x256 RGB canvas with the fixed background
color, on which the fixed shapes are drawn in source order. -/
def create_simple_icon : Raster :=
  let img := Raster.new "RGB" 256 256 (102, 126, 234)
  let img := img.drawn (DrawOp.roundedRectangle [40, 60, 216, 196] 16 "white")
  let img := img.drawn (DrawOp.rectangle [80, 100, 176, 160] "#fbbf24")
  let img := img.drawn
    (DrawOp.polygon [(80, 100), (110, 100), (120, 90), (150, 90), (150, 100)] "#fbbf24")
  let img := img.drawn (DrawOp.ellipse [110, 120, 146, 156] "#667eea")
  let img := img.drawn (DrawOp.text (120, 125) "🎬" "white")
  img

/-- Result of the base-image acquisition phase. -/
structure AcquireResult where
  fs : FS
  base : Raster
  synthesized : Bool
  output : List String
deriving DecidableEq

/-- Lines 48-57 of `main`: if `icon-256.png` does not exist, synthesize the
base image with `create_simple_icon` and save it there; otherwise open the
existing file and write nothing. -/
def acquire (fs : FS) : AcquireResult :=
  match FS.lookup fs basePath with
  | none =>
      let base_img := create_simple_icon
      { fs := FS.write fs basePath (FileContent.png base_img)
        base := base_img
        synthesized := true
        output := ["未找到 icon-256.png，创建简单图标...", "创建简单图标...",
                   "  ✓ 已创建 " ++ basePath] }
  | some c =>
      { fs := fs
        base := c.toImage
        synthesized := false
        output := ["使用现有图标: " ++ basePath] }

/-- One recorded invocation of `base_img.resize((size, size), filter)`. -/
structure ResizeCall where
  src : Raster
  w : Nat
  h : Nat
  filter : Filter
deriving DecidableEq

/-- Result of the resize loop. -/
structure ResizeResult where
  fs : FS
  calls : List ResizeCall
  output : List String
deriving DecidableEq

/-- One iteration of the resize loop (lines 61-67 of `main`): skip size 256,
otherwise resize the base image to `size x size` with LANCZOS and save the
result at `icon-<size>.png`. -/
def resizeStep (base : Raster) (acc : ResizeResult) (size : Nat) : ResizeResult :=
  if size = 256 then acc
  else
    let resized := Raster.resizeOp base size size Filter.lanczos
    { fs := FS.write acc.fs (iconName size) (FileContent.png resized)
      calls := acc.calls ++ [ResizeCall.mk base size size Filter.lanczos]
      output := acc.output ++ ["  ✓ " ++ iconName size] }

/-- The resize loop over `SIZES`. -/
def resizePhase (fs : FS) (base : Raster) : ResizeResult :=
  SIZES.foldl (resizeStep base)
    { fs := fs, calls := [], output := ["生成不同尺寸的 PNG..."] }

/-- Lines 72-75 of `main`: for each size in order, open `icon-<size>.png` if it
exists and append it to `ico_images`. -/
def collectIcoImages (fs : FS) : List Raster :=
  SIZES.filterMap (fun size => openImage fs (iconName size))

/-- Result of the packaging phase. -/
structure PackageResult where
  fs : FS
  icoSizes : Option (List (Nat × Nat))
  output : List String
deriving DecidableEq

/-- Lines 71-84 of `main`: collect the per-size files that exist; if any were
found, save the first — and only the first: the remaining collected images are
passed nowhere — as `icon.ico` with the size-table argument
`[(img.size[0], img.size[1]) for img in ico_images]`; if none were found, do
nothing and raise no error. The `icoSizes` field records the `sizes` argument
of that call; the images the encoder actually embeds are
`icoEmbeddedImages first sizes`, since sizes exceeding the saved first image
are ignored. -/
def packagePhase (fs : FS) : PackageResult :=
  match collectIcoImages fs with
  | [] =>
      { fs := fs, icoSizes := none, output := ["生成 Windows ICO 文件..."] }
  | first :: rest =>
      let sizes := (first :: rest).map (fun img => (img.width, img.height))
      { fs := FS.write fs "icon.ico" (FileContent.ico first sizes)
        icoSizes := some sizes
        output := ["生成 Windows ICO 文件...", "  ✓ icon.ico"] }

/-- Observable outcome of one invocation of the script. -/
structure RunResult where
  fs : FS
  exitCode : Nat
  resizeLog : List ResizeCall
  synthesized : Bool
  icoSizes : Option (List (Nat × Nat))
  output : List String
deriving DecidableEq

/-- The whole script: the `try: from PIL import Image / except ImportError`
guard at lines 11-16 (exit 1 with the remediation message, touching nothing),
then `main` = acquisition, resize loop, packaging, in sequence. -/
def run (pilAvailable : Bool) (fs0 : FS) : RunResult :=
  if pilAvailable = false then
    { fs := fs0
      exitCode := 1
      resizeLog := []
      synthesized := false
      icoSizes := none
      output := ["错误: 需要安装 Pillow", "运行: pip install Pillow"] }
  else
    let a := acquire fs0
    let r := resizePhase a.fs a.base
    let p := packagePhase r.fs
    { fs := p.fs
      exitCode := 0
      resizeLog := r.calls
      synthesized := a.synthesized
      icoSizes := p.icoSizes
      output := a.output ++ r.output ++ p.output ++
        ["✅ 图标生成完成！", "生成的文件位于: SCRIPT_DIR",
         "  - icon-*.png (各种尺寸)", "  - icon.ico (Windows 图标)"] }

/-! ### Helper lemmas -/

theorem FS.lookup_write_self (fs : FS) (p : String) (c : FileContent) :
    FS.lookup (FS.write fs p c) p = some c := by
  simp [FS.write, FS.lookup]

theorem FS.lookup_write_ne (fs : FS) (p q : String) (c : FileContent) (h : p ≠ q) :
    FS.lookup (FS.write fs p c) q = FS.lookup fs q := by
  simp [FS.write, FS.lookup, h]

theorem resizePhase_fs (fs : FS) (base : Raster) :
    (resizePhase fs base).fs =
      FS.write (FS.write (FS.write (FS.write (FS.write fs
        "icon-16.png" (FileContent.png (Raster.resizeOp base 16 16 Filter.lanczos)))
        "icon-32.png" (FileContent.png (Raster.resizeOp base 32 32 Filter.lanczos)))
        "icon-48.png" (FileContent.png (Raster.resizeOp base 48 48 Filter.lanczos)))
        "icon-64.png" (FileContent.png (Raster.resizeOp base 64 64 Filter.lanczos)))
        "icon-128.png" (FileContent.png (Raster.resizeOp base 128 128 Filter.lanczos)) :=
  rfl

theorem resizePhase_calls (fs : FS) (base : Raster) :
    (resizePhase fs base).calls =
      [ResizeCall.mk base 16 16 Filter.lanczos,
       ResizeCall.mk base 32 32 Filter.lanczos,
       ResizeCall.mk base 48 48 Filter.lanczos,
       ResizeCall.mk base 64 64 Filter.lanczos,
       ResizeCall.mk base 128 128 Filter.lanczos] :=
  rfl

theorem resizePhase_lookup_small (fs : FS) (base : Raster) (s : Nat)
    (hs : s ∈ SIZES) (h256 : s ≠ 256) :
    FS.lookup (resizePhase fs base).fs (iconName s) =
      some (FileContent.png (Raster.resizeOp base s s Filter.lanczos)) := by
  simp only [SIZES, List.mem_cons, List.not_mem_nil, or_false] at hs
  rcases hs with rfl | rfl | rfl | rfl | rfl | rfl
  all_goals first
    | exact absurd rfl h256
    | simp +decide [resizePhase_fs, FS.write, FS.lookup, iconName]

theorem resizePhase_lookup_base (fs : FS) (base : Raster) :
    FS.lookup (resizePhase fs base).fs basePath = FS.lookup fs basePath := by
  simp +decide [resizePhase_fs, FS.write, FS.lookup, basePath]

theorem packagePhase_lookup_ne (fs : FS) (p : String) (h : p ≠ "icon.ico") :
    FS.lookup (packagePhase fs).fs p = FS.lookup fs p := by
  unfold packagePhase
  cases collectIcoImages fs with
  | nil => rfl
  | cons first rest =>
      simpa [FS.write, FS.lookup] using fun hc => absurd hc.symm h

theorem packagePhase_complete (fs : FS) (file : Nat → Raster)
    (h : ∀ s ∈ SIZES, openImage fs (iconName s) = some (file s)) :
    packagePhase fs =
      { fs := FS.write fs "icon.ico"
          (FileContent.ico (file 16)
            (SIZES.map fun s => ((file s).width, (file s).height)))
        icoSizes := some (SIZES.map fun s => ((file s).width, (file s).height))
        output := ["生成 Windows ICO 文件...", "  ✓ icon.ico"] } := by
  have h16 := h 16 (by decide)
  have h32 := h 32 (by decide)
  have h48 := h 48 (by decide)
  have h64 := h 64 (by decide)
  have h128 := h 128 (by decide)
  have h256 := h 256 (by decide)
  simp [packagePhase, collectIcoImages, SIZES, List.filterMap,
    h16, h32, h48, h64, h128, h256]

theorem run_true (fs0 : FS) :
    run true fs0 =
      { fs := (packagePhase (resizePhase (acquire fs0).fs (acquire fs0).base).fs).fs
        exitCode := 0
        resizeLog := (resizePhase (acquire fs0).fs (acquire fs0).base).calls
        synthesized := (acquire fs0).synthesized
        icoSizes := (packagePhase (resizePhase (acquire fs0).fs (acquire fs0).base).fs).icoSizes
        output := (acquire fs0).output ++
          (resizePhase (acquire fs0).fs (acquire fs0).base).output ++
          (packagePhase (resizePhase (acquire fs0).fs (acquire fs0).base).fs).output ++
          ["✅ 图标生成完成！", "生成的文件位于: SCRIPT_DIR",
           "  - icon-*.png (各种尺寸)", "  - icon.ico (Windows 图标)"] } :=
  rfl

theorem create_simple_icon_width : create_simple_icon.width = 256 := rfl

theorem create_simple_icon_height : create_simple_icon.height = 256 := rfl

theorem create_simple_icon_mode : create_simple_icon.mode = "RGB" := rfl

theorem acquire_lookup_base (fs0 : FS) :
    ∃ c, FS.lookup (acquire fs0).fs basePath = some c ∧
      c.toImage = (acquire fs0).base := by
  cases hl : FS.lookup fs0 basePath with
  | none => simp [acquire, hl, FS.lookup_write_self, FileContent.toImage]
  | some c => simp [acquire, hl]

theorem run_fs_eq (fs0 : FS) :
    (run true fs0).fs =
      (packagePhase (resizePhase (acquire fs0).fs (acquire fs0).base).fs).fs :=
  rfl

theorem run_lookup_small (fs0 : FS) (s : Nat) (hs : s ∈ SIZES) (h256 : s ≠ 256) :
    FS.lookup (run true fs0).fs (iconName s) =
      some (FileContent.png (Raster.resizeOp (acquire fs0).base s s Filter.lanczos)) := by
  rw [run_fs_eq]
  rw [packagePhase_lookup_ne]
  · exact resizePhase_lookup_small _ _ s hs h256
  · simp only [SIZES, List.mem_cons, List.not_mem_nil, or_false] at hs
    rcases hs with rfl | rfl | rfl | rfl | rfl | rfl <;> simp +decide [iconName]

theorem run_lookup_base (fs0 : FS) :
    FS.lookup (run true fs0).fs basePath = FS.lookup (acquire fs0).fs basePath := by
  rw [run_fs_eq, packagePhase_lookup_ne _ _ (by decide), resizePhase_lookup_base]

/-- Filesystem state used as a counterexample: a 100x100 image already saved at
the fixed base-image path. -/
def preexisting100 : FS :=
  [("icon-256.png", FileContent.png (Raster.new "RGB" 100 100 (0, 0, 0)))]

/-! ### Claims -/

/-- C1: code bug. On the state a fresh run itself produces — per-size files
for all six sizes present, each measuring size x size — the code saves only
`ico_images[0]`, the 16x16 image, passing the five other collected images
nowhere, and the encoder ignores every requested size larger than the saved
image: the produced `icon.ico` embeds exactly one 16x16 image, not one image
per discovered size as the spec guarantees. -/
theorem C1_container_single_embedded_image :
    FS.lookup (run true []).fs "icon.ico" =
      some (FileContent.ico
        (Raster.resizeOp (acquire []).base 16 16 Filter.lanczos)
        [(16, 16), (32, 32), (48, 48), (64, 64), (128, 128), (256, 256)]) ∧
    (Raster.resizeOp (acquire []).base 16 16 Filter.lanczos).width = 16 ∧
    (Raster.resizeOp (acquire []).base 16 16 Filter.lanczos).height = 16 ∧
    icoEmbeddedSizes (Raster.resizeOp (acquire []).base 16 16 Filter.lanczos)
        [(16, 16), (32, 32), (48, 48), (64, 64), (128, 128), (256, 256)] =
      [(16, 16)] ∧
    icoEmbeddedImages (Raster.resizeOp (acquire []).base 16 16 Filter.lanczos)
        [(16, 16), (32, 32), (48, 48), (64, 64), (128, 128), (256, 256)] =
      [Raster.resizeOp (acquire []).base 16 16 Filter.lanczos] ∧
    (icoEmbeddedImages (Raster.resizeOp (acquire []).base 16 16 Filter.lanczos)
        [(16, 16), (32, 32), (48, 48), (64, 64), (128, 128), (256, 256)]).length ≠ 6 := by
  decide

/-- C2 counterexample: with a 100x100 image pre-existing at `icon-256.png`, the
run completes with exit code 0, yet the file at the per-size path for 256 has
decoded dimensions 100x100, not 256x256. -/
theorem C2_counterexample :
    (run true preexisting100).exitCode = 0 ∧
    openImage (run true preexisting100).fs (iconName 256) =
      some (Raster.new "RGB" 100 100 (0, 0, 0)) ∧
    ¬ (Raster.new "RGB" 100 100 (0, 0, 0)).width = 256 := by
  decide

/-- C2 (amended): after a run that completes without error, for every size in
the Size List except 256 — unconditionally, for every initial filesystem
state — a file exists at the per-size path with decoded dimensions exactly
size x size; the same holds for size 256 provided the fixed base path was
initially absent or held a 256x256 image; and a pre-existing base file of any
dimensions is carried over unchanged as the size-256 variant. -/
theorem C2_amended_sizes_correct (fs0 : FS) :
    (run true fs0).exitCode = 0 ∧
    (∀ s ∈ SIZES, s ≠ 256 → ∃ img,
        openImage (run true fs0).fs (iconName s) = some img ∧
        img.width = s ∧ img.height = s) ∧
    ((∀ img, openImage fs0 basePath = some img → img.width = 256 ∧ img.height = 256) →
      ∃ img, openImage (run true fs0).fs (iconName 256) = some img ∧
        img.width = 256 ∧ img.height = 256) ∧
    (∀ c, FS.lookup fs0 basePath = some c →
      FS.lookup (run true fs0).fs (iconName 256) = some c) := by
  have he : iconName 256 = basePath := by decide
  refine ⟨rfl, ?_, ?_, ?_⟩
  · intro s hs h256
    exact ⟨Raster.resizeOp (acquire fs0).base s s Filter.lanczos,
      by rw [openImage, run_lookup_small fs0 s hs h256]; rfl, rfl, rfl⟩
  · intro h
    have hbase : (acquire fs0).base.width = 256 ∧ (acquire fs0).base.height = 256 := by
      cases hl : FS.lookup fs0 basePath with
      | none => simp [acquire, hl, create_simple_icon_width, create_simple_icon_height]
      | some c =>
          have := h c.toImage (by simp [openImage, hl])
          simpa [acquire, hl] using this
    obtain ⟨c, hc, hci⟩ := acquire_lookup_base fs0
    refine ⟨(acquire fs0).base, ?_, hbase.1, hbase.2⟩
    rw [he, openImage, run_lookup_base, hc]
    simp [hci]
  · intro c hl
    rw [he, run_lookup_base]
    simp [acquire, hl]

/-- C2 amended witness: at the concrete state with a 100x100 pre-existing base,
exercising both the unconditional non-256 clause and the carry-over clause. -/
theorem C2_amended_sizes_correct_witness :
    (run true preexisting100).exitCode = 0 ∧
    (∀ s ∈ SIZES, s ≠ 256 → ∃ img,
        openImage (run true preexisting100).fs (iconName s) = some img ∧
        img.width = s ∧ img.height = s) ∧
    ((∀ img, openImage preexisting100 basePath = some img →
        img.width = 256 ∧ img.height = 256) →
      ∃ img, openImage (run true preexisting100).fs (iconName 256) = some img ∧
        img.width = 256 ∧ img.height = 256) ∧
    (∀ c, FS.lookup preexisting100 basePath = some c →
      FS.lookup (run true preexisting100).fs (iconName 256) = some c) :=
  C2_amended_sizes_correct preexisting100

/-- C3 counterexample: with a 100x100 image pre-existing at the fixed path,
acquisition loads it as the Base Image, whose dimensions are 100x100, not
256x256 — refuting the claim that acquisition yields a 256x256 base for every
initial filesystem state. -/
theorem C3_counterexample :
    (acquire preexisting100).base.width = 100 ∧
    ¬ ((acquire preexisting100).base.width = 256 ∧
       (acquire preexisting100).base.height = 256) := by
  decide

/-- C3 (amended): after acquisition exactly one Base Image exists, in memory
and on disk at the fixed path (the in-memory image is the image stored at the
path); when the path was initially absent it is the synthesized 256x256 image,
and when a file pre-existed it is that file's own image, the filesystem left
untouched. -/
theorem C3_amended_acquisition (fs0 : FS) :
    openImage (acquire fs0).fs basePath = some (acquire fs0).base ∧
    (FS.lookup fs0 basePath = none →
      (acquire fs0).synthesized = true ∧
      (acquire fs0).base = create_simple_icon ∧
      (acquire fs0).base.width = 256 ∧ (acquire fs0).base.height = 256) ∧
    (∀ c, FS.lookup fs0 basePath = some c →
      (acquire fs0).fs = fs0 ∧ (acquire fs0).synthesized = false ∧
      (acquire fs0).base = c.toImage) := by
  refine ⟨?_, ?_, ?_⟩
  · obtain ⟨c, hc, hci⟩ := acquire_lookup_base fs0
    rw [openImage, hc]
    simp [hci]
  · intro hl
    simp [acquire, hl, create_simple_icon_width, create_simple_icon_height]
  · intro c hl
    simp [acquire, hl]

/-- C4: on every run, no resize invocation ever targets the native size 256
(the loop skips it), yet before the packaging phase runs a file exists on disk
at the per-size path for 256 (`icon-256.png`). -/
theorem C4_native_size_skipped (fs0 : FS) :
    (∀ c ∈ (run true fs0).resizeLog, c.w ≠ 256 ∧ c.h ≠ 256) ∧
    (∃ f, FS.lookup (resizePhase (acquire fs0).fs (acquire fs0).base).fs
        (iconName 256) = some f) := by
  constructor
  · intro c hc
    have he : (run true fs0).resizeLog =
        (resizePhase (acquire fs0).fs (acquire fs0).base).calls := rfl
    rw [he, resizePhase_calls] at hc
    simp only [List.mem_cons, List.not_mem_nil, or_false] at hc
    rcases hc with rfl | rfl | rfl | rfl | rfl <;> refine ⟨?_, ?_⟩ <;> simp
  · have he : iconName 256 = basePath := by decide
    rw [he, resizePhase_lookup_base]
    obtain ⟨c, hc, _⟩ := acquire_lookup_base fs0
    exact ⟨c, hc⟩

/-- C4 witness: instantiated at the empty filesystem. -/
theorem C4_native_size_skipped_witness :
    (∀ c ∈ (run true []).resizeLog, c.w ≠ 256 ∧ c.h ≠ 256) ∧
    (∃ f, FS.lookup (resizePhase (acquire []).fs (acquire []).base).fs
        (iconName 256) = some f) :=
  C4_native_size_skipped []

/-- C5: when a base image file already exists at the fixed path, acquisition
writes nothing (the filesystem is returned unchanged, no synthesis), and the
loaded image itself is the source of every resize invocation of the run. -/
theorem C5_preexisting_load_only (fs0 : FS) (img : Raster)
    (h : FS.lookup fs0 basePath = some (FileContent.png img)) :
    (acquire fs0).fs = fs0 ∧
    (acquire fs0).synthesized = false ∧
    (acquire fs0).base = img ∧
    ∀ c ∈ (run true fs0).resizeLog, c.src = img := by
  have hfs : (acquire fs0).fs = fs0 := by simp [acquire, h]
  have hbase : (acquire fs0).base = img := by simp [acquire, h, FileContent.toImage]
  have hsyn : (acquire fs0).synthesized = false := by simp [acquire, h]
  refine ⟨hfs, hsyn, hbase, ?_⟩
  intro c hc
  have he : (run true fs0).resizeLog =
      (resizePhase (acquire fs0).fs (acquire fs0).base).calls := rfl
  rw [he, resizePhase_calls, hbase] at hc
  simp only [List.mem_cons, List.not_mem_nil, or_false] at hc
  rcases hc with rfl | rfl | rfl | rfl | rfl <;> rfl

/-- C5 witness: a concrete pre-existing base image. -/
theorem C5_preexisting_load_only_witness :
    (acquire preexisting100).fs = preexisting100 ∧
    (acquire preexisting100).synthesized = false ∧
    (acquire preexisting100).base = Raster.new "RGB" 100 100 (0, 0, 0) ∧
    ∀ c ∈ (run true preexisting100).resizeLog,
      c.src = Raster.new "RGB" 100 100 (0, 0, 0) :=
  C5_preexisting_load_only preexisting100 (Raster.new "RGB" 100 100 (0, 0, 0)) (by decide)

/-- C6: from a state with no file at the fixed path, a run synthesizes the
256x256 base image and saves it there; a second run on the resulting state
takes the pre-existing branch and performs no new synthesis. -/
theorem C6_second_run_no_synthesis (fs0 : FS) (h : FS.lookup fs0 basePath = none) :
    (run true fs0).synthesized = true ∧
    openImage (run true fs0).fs basePath = some create_simple_icon ∧
    create_simple_icon.width = 256 ∧ create_simple_icon.height = 256 ∧
    (run true (run true fs0).fs).synthesized = false := by
  have h1 : (acquire fs0).synthesized = true := by simp [acquire, h]
  have hlook : FS.lookup (acquire fs0).fs basePath =
      some (FileContent.png create_simple_icon) := by
    simp [acquire, h, FS.lookup_write_self]
  have hfin : FS.lookup (run true fs0).fs basePath =
      some (FileContent.png create_simple_icon) := by
    rw [run_lookup_base]; exact hlook
  refine ⟨h1, ?_, rfl, rfl, ?_⟩
  · rw [openImage, hfin]; rfl
  · show (acquire (run true fs0).fs).synthesized = false
    simp [acquire, hfin]

/-- C6 witness: starting from the empty filesystem. -/
theorem C6_second_run_no_synthesis_witness :
    (run true []).synthesized = true ∧
    openImage (run true []).fs basePath = some create_simple_icon ∧
    create_simple_icon.width = 256 ∧ create_simple_icon.height = 256 ∧
    (run true (run true []).fs).synthesized = false :=
  C6_second_run_no_synthesis [] rfl

/-- C7: when the imaging library is unavailable, the program exits with the
non-zero status 1 and the two remediation lines, the filesystem untouched, no
resize invoked, no synthesis performed and no container size table produced. -/
theorem C7_fail_fast_without_pil (fs0 : FS) :
    (run false fs0).exitCode = 1 ∧
    (run false fs0).exitCode ≠ 0 ∧
    (run false fs0).fs = fs0 ∧
    (run false fs0).resizeLog = [] ∧
    (run false fs0).synthesized = false ∧
    (run false fs0).icoSizes = none ∧
    (run false fs0).output = ["错误: 需要安装 Pillow", "运行: pip install Pillow"] :=
  ⟨rfl, (by decide : (1 : Nat) ≠ 0), rfl, rfl, rfl, rfl, rfl⟩

/-- C7 witness: instantiated at the empty filesystem. -/
theorem C7_fail_fast_without_pil_witness :
    (run false []).exitCode = 1 ∧
    (run false []).exitCode ≠ 0 ∧
    (run false []).fs = [] ∧
    (run false []).resizeLog = [] ∧
    (run false []).synthesized = false ∧
    (run false []).icoSizes = none ∧
    (run false []).output = ["错误: 需要安装 Pillow", "运行: pip install Pillow"] :=
  C7_fail_fast_without_pil []

/-- C8: when no per-size file exists at packaging time, the collected image
sequence is empty and packaging changes nothing — the filesystem is returned
as is (no container file written), no size table is produced, no error. -/
theorem C8_empty_collection_skips (fs : FS)
    (h : ∀ s ∈ SIZES, FS.lookup fs (iconName s) = none) :
    collectIcoImages fs = [] ∧
    packagePhase fs =
      { fs := fs, icoSizes := none, output := ["生成 Windows ICO 文件..."] } := by
  have h16 := h 16 (by decide)
  have h32 := h 32 (by decide)
  have h48 := h 48 (by decide)
  have h64 := h 64 (by decide)
  have h128 := h 128 (by decide)
  have h256 := h 256 (by decide)
  have hcol : collectIcoImages fs = [] := by
    simp [collectIcoImages, SIZES, List.filterMap, openImage,
      h16, h32, h48, h64, h128, h256]
  refine ⟨hcol, ?_⟩
  unfold packagePhase
  rw [hcol]

/-- C8 witness: the empty filesystem. -/
theorem C8_empty_collection_skips_witness :
    collectIcoImages [] = [] ∧
    packagePhase [] =
      { fs := [], icoSizes := none, output := ["生成 Windows ICO 文件..."] } :=
  C8_empty_collection_skips [] (by decide)

/-- C9: the resize loop performs exactly one LANCZOS resize of the base image
to size x size for each size in the Size List other than 256, in order, and
saves each result at the per-size path `icon-<size>.png`. -/
theorem C9_lanczos_resize_loop (fs : FS) (base : Raster) :
    (resizePhase fs base).calls =
      (SIZES.filter (fun s => s != 256)).map
        (fun s => ResizeCall.mk base s s Filter.lanczos) ∧
    ∀ s ∈ SIZES, s ≠ 256 →
      FS.lookup (resizePhase fs base).fs (iconName s) =
        some (FileContent.png (Raster.resizeOp base s s Filter.lanczos)) := by
  exact ⟨rfl, fun s hs h256 => resizePhase_lookup_small fs base s hs h256⟩

/-- C9 witness: a concrete base raster over the empty filesystem. -/
theorem C9_lanczos_resize_loop_witness :
    (resizePhase [] (Raster.new "RGB" 256 256 (0, 0, 0))).calls =
      (SIZES.filter (fun s => s != 256)).map
        (fun s => ResizeCall.mk (Raster.new "RGB" 256 256 (0, 0, 0)) s s Filter.lanczos) ∧
    ∀ s ∈ SIZES, s ≠ 256 →
      FS.lookup (resizePhase [] (Raster.new "RGB" 256 256 (0, 0, 0))).fs (iconName s) =
        some (FileContent.png
          (Raster.resizeOp (Raster.new "RGB" 256 256 (0, 0, 0)) s s Filter.lanczos)) :=
  C9_lanczos_resize_loop [] (Raster.new "RGB" 256 256 (0, 0, 0))

/-- C10: when the base image is synthesized (no file pre-exists at the fixed
path), it is an RGB raster with no alpha channel, every per-size file produced
by the run is RGB with no alpha, and the image embedded in the container is
RGB with no alpha. -/
theorem C10_synthesized_rgb_opaque (fs0 : FS) (h : FS.lookup fs0 basePath = none) :
    create_simple_icon.mode = "RGB" ∧
    modeHasAlpha create_simple_icon.mode = false ∧
    (∀ s ∈ SIZES, ∃ img, openImage (run true fs0).fs (iconName s) = some img ∧
      img.mode = "RGB" ∧ modeHasAlpha img.mode = false) ∧
    (∃ first sizes, FS.lookup (run true fs0).fs "icon.ico" =
        some (FileContent.ico first sizes) ∧
      first.mode = "RGB" ∧ modeHasAlpha first.mode = false) := by
  have hbase : (acquire fs0).base = create_simple_icon := by simp [acquire, h]
  have hlook1 : FS.lookup (acquire fs0).fs basePath =
      some (FileContent.png create_simple_icon) := by
    simp [acquire, h, FS.lookup_write_self]
  have hfile : ∀ s ∈ SIZES,
      openImage (resizePhase (acquire fs0).fs (acquire fs0).base).fs (iconName s) =
        some (if s = 256 then (acquire fs0).base
              else Raster.resizeOp (acquire fs0).base s s Filter.lanczos) := by
    intro s hs
    by_cases h256 : s = 256
    · subst h256
      rw [if_pos rfl]
      have he : iconName 256 = basePath := by decide
      rw [he, openImage, resizePhase_lookup_base, hlook1, hbase]
      rfl
    · rw [if_neg h256, openImage, resizePhase_lookup_small _ _ s hs h256]
      rfl
  have hpkg := packagePhase_complete
    (resizePhase (acquire fs0).fs (acquire fs0).base).fs
    (fun s => if s = 256 then (acquire fs0).base
              else Raster.resizeOp (acquire fs0).base s s Filter.lanczos) hfile
  refine ⟨rfl, rfl, ?_, ?_⟩
  · intro s hs
    by_cases h256 : s = 256
    · subst h256
      refine ⟨create_simple_icon, ?_, rfl, rfl⟩
      have he : iconName 256 = basePath := by decide
      rw [he, openImage, run_lookup_base, hlook1]
      rfl
    · refine ⟨Raster.resizeOp (acquire fs0).base s s Filter.lanczos, ?_, ?_, ?_⟩
      · rw [openImage, run_lookup_small fs0 s hs h256]; rfl
      · show ((acquire fs0).base).mode = "RGB"
        rw [hbase, create_simple_icon_mode]
      · show modeHasAlpha ((acquire fs0).base).mode = false
        rw [hbase, create_simple_icon_mode]
        decide
  · rw [run_fs_eq, hpkg]
    refine ⟨_, _, FS.lookup_write_self _ _ _, ?_, ?_⟩
    · show (if (16 : Nat) = 256 then (acquire fs0).base
            else (acquire fs0).base.resizeOp 16 16 Filter.lanczos).mode = "RGB"
      rw [if_neg (by decide : ¬ (16 : Nat) = 256)]
      show ((acquire fs0).base).mode = "RGB"
      rw [hbase, create_simple_icon_mode]
    · show modeHasAlpha (if (16 : Nat) = 256 then (acquire fs0).base
            else (acquire fs0).base.resizeOp 16 16 Filter.lanczos).mode = false
      rw [if_neg (by decide : ¬ (16 : Nat) = 256)]
      show modeHasAlpha ((acquire fs0).base).mode = false
      rw [hbase, create_simple_icon_mode]
      decide

/-- C10 witness: starting from the empty filesystem. -/
theorem C10_synthesized_rgb_opaque_witness :
    create_simple_icon.mode = "RGB" ∧
    modeHasAlpha create_simple_icon.mode = false ∧
    (∀ s ∈ SIZES, ∃ img, openImage (run true []).fs (iconName s) = some img ∧
      img.mode = "RGB" ∧ modeHasAlpha img.mode = false) ∧
    (∃ first sizes, FS.lookup (run true []).fs "icon.ico" =
        some (FileContent.ico first sizes) ∧
      first.mode = "RGB" ∧ modeHasAlpha first.mode = false) :=
  C10_synthesized_rgb_opaque [] rfl

/-- C3 amended witness: instantiated at the empty filesystem. -/
theorem C3_amended_acquisition_witness :
    openImage (acquire []).fs basePath = some (acquire []).base ∧
    (FS.lookup ([] : FS) basePath = none →
      (acquire []).synthesized = true ∧
      (acquire []).base = create_simple_icon ∧
      (acquire []).base.width = 256 ∧ (acquire []).base.height = 256) ∧
    (∀ c, FS.lookup ([] : FS) basePath = some c →
      (acquire []).fs = [] ∧ (acquire []).synthesized = false ∧
      (acquire []).base = c.toImage) :=
  C3_amended_acquisition []

end GenerateIcons
